import Mathlib

/-!
Shallow embedding of the per-frame simulation core of `src/source/main.cpp`
(an asteroids-style arcade game).  All C++ `float` arithmetic is modelled
over `Rat`; trigonometric functions and the degree-to-radian constant come
from the external math library and are threaded through as an abstract
`Trig` record.  Comparisons of Euclidean distances `Vector2Distance a b < r`
(with `0 ≤ r`, which holds for every radius in the program) are encoded
order-faithfully as comparisons of squared quantities
`Vector2DistSq a b < r ^ 2`, since `Rat` has no square root.
Randomness (calls to `GetRandomValue` / `Utils::RandomFloat`) is modelled by
passing the drawn values as explicit parameters.
-/

/-- Two-dimensional vector, modelling raylib's `Vector2`. -/
structure Vec2 where
  x : Rat
  y : Rat
deriving DecidableEq, Repr

/-- raylib `Vector2Add`. -/
def Vector2Add (a b : Vec2) : Vec2 := ⟨a.x + b.x, a.y + b.y⟩

/-- raylib `Vector2Scale`. -/
def Vector2Scale (v : Vec2) (s : Rat) : Vec2 := ⟨v.x * s, v.y * s⟩

/-- Squared Euclidean distance; `Vector2Distance a b = Rat.sqrt (Vector2DistSq a b)`
conceptually, and every comparison of distances in the source is embedded as the
corresponding comparison of `Vector2DistSq` values against squared bounds. -/
def Vector2DistSq (a b : Vec2) : Rat :=
  (a.x - b.x) * (a.x - b.x) + (a.y - b.y) * (a.y - b.y)

/-- `Application::C_WIDTH`; also the width the `Renderer` singleton is initialised with. -/
def C_WIDTH : Rat := 1600

/-- `Application::C_HEIGHT`; also the height the `Renderer` singleton is initialised with. -/
def C_HEIGHT : Rat := 1600

/-- `enum class WeaponType` (the `COUNT` sentinel is not a real weapon). -/
inductive WeaponType where
  | LASER
  | BULLET
deriving DecidableEq, Repr

/-- The concrete asteroid subclass (`TriangleAsteroid` / `SquareAsteroid` /
`PentagonAsteroid`), i.e. the shape of the drawn polygon. -/
inductive AstKind where
  | TRIANGLE
  | SQUARE
  | PENTAGON
deriving DecidableEq, Repr

/-- State of an `Asteroid` object: `TransformA` + `Physics` + `Renderable.size`
+ the `baseDamage` field set by the subclass constructor, plus the subclass
tag itself. -/
structure Asteroid where
  pos : Vec2
  vel : Vec2
  rotation : Rat
  rotationSpeed : Rat
  size : Nat
  baseDamage : Int
  kind : AstKind
deriving DecidableEq, Repr

/-- `Asteroid::GetRadius`: `16.f * (float)render.size`. -/
def Asteroid.GetRadius (a : Asteroid) : Rat := 16 * (a.size : Rat)

/-- `Asteroid::GetDamage`: `baseDamage * static_cast<int>(render.size)`. -/
def Asteroid.GetDamage (a : Asteroid) : Int := a.baseDamage * (a.size : Int)

/-- `Asteroid::Update(dt)`: advance position by `velocity*dt` and rotation by
`rotationSpeed*dt`, then report `false` (second component) when the new
position is outside the screen rectangle expanded by the radius. -/
def Asteroid.Update (dt : Rat) (a : Asteroid) : Asteroid × Bool :=
  let a' : Asteroid :=
    { a with
      pos := Vector2Add a.pos (Vector2Scale a.vel dt)
      rotation := a.rotation + a.rotationSpeed * dt }
  if a'.pos.x < -a'.GetRadius ∨ a'.pos.x > C_WIDTH + a'.GetRadius ∨
     a'.pos.y < -a'.GetRadius ∨ a'.pos.y > C_HEIGHT + a'.GetRadius then
    (a', false)
  else
    (a', true)

/-- Per-shape `baseDamage` assigned by the subclass constructors
(`TriangleAsteroid`=5, `SquareAsteroid`=10, `PentagonAsteroid`=15). -/
def shapeBaseDamage : AstKind → Int
  | .TRIANGLE => 5
  | .SQUARE => 10
  | .PENTAGON => 15

/-- Construction of an asteroid of a given concrete shape: `Asteroid::init`
draws `GetRandomValue(0, 2)` (modelled by `k`) and sets
`render.size = 1 << k`; the subclass constructor then sets `baseDamage`.
The random spawn position, velocity and rotation draws of `init` are passed
in as the remaining parameters. -/
def MakeAsteroidState (kind : AstKind) (k : Nat) (pos vel : Vec2)
    (rot rotSpeed : Rat) : Asteroid :=
  { pos := pos
    vel := vel
    rotation := rot
    rotationSpeed := rotSpeed
    size := 1 <<< k
    baseDamage := shapeBaseDamage kind
    kind := kind }

/-- State of a `Projectile` object. -/
structure Projectile where
  pos : Vec2
  vel : Vec2
  baseDamage : Int
  kind : WeaponType
deriving DecidableEq, Repr

/-- `Projectile::GetRadius`: bullet 5, laser 2. -/
def Projectile.GetRadius (p : Projectile) : Rat :=
  if p.kind = .BULLET then 5 else 2

/-- `Projectile::GetDamage`. -/
def Projectile.GetDamage (p : Projectile) : Int := p.baseDamage

/-- `Projectile::Update(dt)`: advance the position; the second component is
`true` exactly when the projectile has left `[0,W] × [0,H]` (no radius
margin) and should be removed. -/
def Projectile.Update (dt : Rat) (p : Projectile) : Projectile × Bool :=
  let p' : Projectile := { p with pos := Vector2Add p.pos (Vector2Scale p.vel dt) }
  if p'.pos.x < 0 ∨ p'.pos.x > C_WIDTH ∨ p'.pos.y < 0 ∨ p'.pos.y > C_HEIGHT then
    (p', true)
  else
    (p', false)

/-- Abstract interface to the external math library: the `DEG2RAD` constant
and the `cosf` / `sinf` functions used by the firing code. -/
structure Trig where
  DEG2RAD : Rat
  cosf : Rat → Rat
  sinf : Rat → Rat

/-- `MakeProjectile(wt, pos, speed, rotationDeg)`: direction
`(sin r, -cos r)` for `r = DEG2RAD * rotationDeg`, velocity `dir * speed`,
damage 20 for lasers and 10 for bullets. -/
def MakeProjectile (tg : Trig) (wt : WeaponType) (pos : Vec2) (speed : Rat)
    (rotationDeg : Rat) : Projectile :=
  let rotationRad := tg.DEG2RAD * rotationDeg
  let dir : Vec2 := ⟨tg.sinf rotationRad, -tg.cosf rotationRad⟩
  let vel := Vector2Scale dir speed
  if wt = .LASER then
    { pos := pos, vel := vel, baseDamage := 20, kind := wt }
  else
    { pos := pos, vel := vel, baseDamage := 10, kind := wt }

/-- Per-node state of a `Ship` object.  `radius` models the virtual
`GetRadius()` (for `PlayerShip` it is `texture.width * scale * 0.5`, a
constant fixed at construction, so it is stored as a field here).  The
non-owning `parent` pointer is modelled by `hasParent` together with the
tree structure of `Ship`. -/
structure ShipData where
  pos : Vec2
  rotation : Rat
  hp : Int
  speed : Rat
  alive : Bool
  fireRateLaser : Rat
  fireRateBullet : Rat
  spacingLaser : Rat
  spacingBullet : Rat
  hasParent : Bool
  orbitRadius : Rat
  orbitAngle : Rat
  score : Int
  radius : Rat
deriving DecidableEq, Repr

/-- `Ship::TakeDamage(dmg)`: no-op when dead; otherwise subtract from `hp`
and clear `alive` when the new `hp` is `≤ 0`. -/
def ShipData.TakeDamage (s : ShipData) (dmg : Int) : ShipData :=
  if !s.alive then s
  else
    let hp' := s.hp - dmg
    { s with hp := hp', alive := if hp' ≤ 0 then false else s.alive }

/-- `Ship::GetFireRate`. -/
def ShipData.GetFireRate (s : ShipData) (wt : WeaponType) : Rat :=
  if wt = .LASER then s.fireRateLaser else s.fireRateBullet

/-- `Ship::GetSpacing`. -/
def ShipData.GetSpacing (s : ShipData) (wt : WeaponType) : Rat :=
  if wt = .LASER then s.spacingLaser else s.spacingBullet

/-- `Ship::AddScore`. -/
def ShipData.AddScore (s : ShipData) (n : Int) : ShipData :=
  { s with score := s.score + n }

/-- The ship tree: a node's state plus its owned `orbiters` vector. -/
inductive Ship where
  | node (d : ShipData) (orbs : List Ship)

/-- The `while (shotTimer >= interval) { ...; shotTimer -= interval; }` loop
inside `Ship::ShootAll`, returning the number of emitted projectiles and the
final timer.  The `0 < interval` conjunct makes the model total: in the
source, `interval = 1/fireRate` is positive for every ship the program
constructs (rates 18 and 22), and for a non-positive interval the C++ loop
would not terminate at all. -/
def shootLoop (interval : Rat) (timer : Rat) : Nat × Rat :=
  if h : 0 < interval ∧ interval ≤ timer then
    let r := shootLoop interval (timer - interval)
    (r.1 + 1, r.2)
  else
    (0, timer)
termination_by (⌊timer / interval⌋).toNat
decreasing_by
  obtain ⟨hi, ht⟩ := h
  have hne : interval ≠ 0 := ne_of_gt hi
  have hdiv : (timer - interval) / interval = timer / interval - 1 := by
    field_simp
  have hfl : ⌊(timer - interval) / interval⌋ = ⌊timer / interval⌋ - 1 := by
    rw [hdiv, Int.floor_sub_one]
  have hone : (1 : Rat) ≤ timer / interval := (one_le_div hi).mpr ht
  have hge : 1 ≤ ⌊timer / interval⌋ := by
    exact_mod_cast Int.le_floor.mpr (by exact_mod_cast hone)
  simp only [hfl]
  omega

/-- Muzzle point computed inside `Ship::ShootAll`: the local offset
`(0, -GetRadius())` rotated by the ship's facing and added to its position. -/
def muzzlePoint (tg : Trig) (d : ShipData) : Vec2 :=
  let rotRad := tg.DEG2RAD * d.rotation
  let localOffset : Vec2 := ⟨0, -d.radius⟩
  let rotatedOffset : Vec2 :=
    ⟨localOffset.x * tg.cosf rotRad - localOffset.y * tg.sinf rotRad,
     localOffset.x * tg.sinf rotRad + localOffset.y * tg.cosf rotRad⟩
  Vector2Add d.pos rotatedOffset

mutual

/-- `Ship::ShootAll(projectiles, currentWeapon, shotTimer, dt)`: early return
when dead; otherwise add `dt` to the shared timer, run the emission loop
(every iteration appends the same projectile, since the ship's state does not
change inside the loop), then recurse into the orbiters with the same timer.
State is the pair (projectile list, shotTimer). -/
def Ship.ShootAll (tg : Trig) (w : WeaponType) (dt : Rat) :
    Ship → List Projectile × Rat → List Projectile × Rat
  | .node d orbs, st =>
    if !d.alive then st
    else
      let timer1 := st.2 + dt
      let interval := 1 / d.GetFireRate w
      let projSpeed := d.GetSpacing w * d.GetFireRate w
      let r := shootLoop interval timer1
      let projs1 := st.1 ++ List.replicate r.1
        (MakeProjectile tg w (muzzlePoint tg d) projSpeed d.rotation)
      ShootAllList tg w dt orbs (projs1, r.2)

/-- The `for (auto& orb : orbiters) orb->ShootAll(...)` recursion. -/
def ShootAllList (tg : Trig) (w : WeaponType) (dt : Rat) :
    List Ship → List Projectile × Rat → List Projectile × Rat
  | [], st => st
  | s :: ss, st => ShootAllList tg w dt ss (Ship.ShootAll tg w dt s st)

end

mutual

/-- `Ship::GetAllShips`: pre-order flattening of the ship tree into the scan
list the collision system uses. -/
def Ship.GetAllShips : Ship → List ShipData
  | .node d orbs => d :: GetAllShipsList orbs

/-- Flattening of a list of subtrees, in order. -/
def GetAllShipsList : List Ship → List ShipData
  | [] => []
  | s :: ss => s.GetAllShips ++ GetAllShipsList ss

end

/-- The collision test of the projectile-vs-asteroid pass:
`Vector2Distance(pit->GetPosition(), ait->GetPosition()) < pit->GetRadius() + ait->GetRadius()`,
encoded with squared quantities (both radii are nonnegative). -/
def projectileHits (p : Projectile) (a : Asteroid) : Bool :=
  Vector2DistSq p.pos a.pos < (p.GetRadius + a.GetRadius) * (p.GetRadius + a.GetRadius)

/-- The inner `for (ait = asteroids.begin(); ...)` scan of the projectile
pass: the first asteroid (in list order) the projectile hits, together with
the asteroid list with that asteroid erased. -/
def findFirstHit (p : Projectile) : List Asteroid → Option (Asteroid × List Asteroid)
  | [] => none
  | a :: as =>
    if projectileHits p a then some (a, as)
    else
      match findFirstHit p as with
      | none => none
      | some (hit, rest) => some (hit, a :: rest)

/-- The `for (auto* s : allShips)` closest-ship scan: running
`minDist = 1e9; if (d < minDist) { minDist = d; closest = s; }`, with
distances compared in squared form (so the initial bound is `(1e9)^2`).
Returns the index of the winning ship in the flattened list. -/
def closestLoop (ppos : Vec2) : List ShipData → Nat → Option Nat → Rat → Option Nat
  | [], _, best, _ => best
  | s :: ss, i, best, minDistSq =>
    let d := Vector2DistSq s.pos ppos
    if d < minDistSq then closestLoop ppos ss (i + 1) (some i) d
    else closestLoop ppos ss (i + 1) best minDistSq

/-- Index of the ship of the flattened list closest to `ppos` (first one wins
ties; `none` when the list is empty or every ship is at distance ≥ 1e9). -/
def closestShipIdx (ships : List ShipData) (ppos : Vec2) : Option Nat :=
  closestLoop ppos ships 0 none ((1000000000 : Rat) * 1000000000)

/-- `closest->AddScore(1)` applied at a given index of the flattened list. -/
def AddScoreAt : List ShipData → Nat → List ShipData
  | [], _ => []
  | s :: ss, 0 => s.AddScore 1 :: ss
  | s :: ss, n + 1 => s :: AddScoreAt ss n

/-- The projectile-vs-asteroid pass (`main.cpp` lines 575-598): for each
projectile in order, scan the asteroids; on the first hit, add +1 score to
the closest ship, erase both the asteroid and the projectile and stop
scanning for that projectile; otherwise keep the projectile.
Returns (surviving projectiles, surviving asteroids, updated ships). -/
def projAstPass : List ShipData → List Projectile → List Asteroid →
    List Projectile × List Asteroid × List ShipData
  | ships, [], asts => ([], asts, ships)
  | ships, p :: ps, asts =>
    match findFirstHit p asts with
    | some (_, rest) =>
      let ships' :=
        match closestShipIdx ships p.pos with
        | some i => AddScoreAt ships i
        | none => ships
      projAstPass ships' ps rest
    | none =>
      let r := projAstPass ships ps asts
      (p :: r.1, r.2.1, r.2.2)

/-- The ship-side collision test inside the `remove_collision` lambda,
encoded with squared quantities. -/
def shipHits (s : ShipData) (a : Asteroid) : Bool :=
  Vector2DistSq s.pos a.pos < (s.radius + a.GetRadius) * (s.radius + a.GetRadius)

/-- The `for (auto* player : allShips)` scan of `remove_collision`: index of
the first ship that is alive and within collision range of the asteroid. -/
def firstAliveHit : List ShipData → Asteroid → Option Nat
  | [], _ => none
  | s :: ss, a =>
    if s.alive && shipHits s a then some 0
    else (firstAliveHit ss a).map (· + 1)

/-- `player->TakeDamage(dmg)` applied at a given index of the flattened list. -/
def damageAt : List ShipData → Nat → Int → List ShipData
  | [], _, _ => []
  | s :: ss, 0, dmg => s.TakeDamage dmg :: ss
  | s :: ss, n + 1, dmg => s :: damageAt ss n dmg

/-- The ship-vs-asteroid pass (`main.cpp` lines 600-619): `remove_if` over
the asteroids with the `remove_collision` lambda — the first alive ship in
range takes the asteroid's damage and the asteroid is erased; an asteroid
that hits nobody is advanced by `Asteroid::Update(dt)` and erased exactly
when that reports it expired.  Returns (updated ships, surviving asteroids). -/
def shipAstPass (dt : Rat) : List ShipData → List Asteroid → List ShipData × List Asteroid
  | ships, [] => (ships, [])
  | ships, a :: as =>
    match firstAliveHit ships a with
    | some i => shipAstPass dt (damageAt ships i a.GetDamage) as
    | none =>
      let u := a.Update dt
      let r := shipAstPass dt ships as
      if u.2 then (r.1, u.1 :: r.2) else r

/-- The projectile update/expiry sweep (`main.cpp` lines 563-569):
`remove_if` removing every projectile whose `Update(dt)` reports it left the
screen; survivors keep their advanced state. -/
def cullProjectiles (dt : Rat) (ps : List Projectile) : List Projectile :=
  ps.filterMap fun p =>
    let u := p.Update dt
    if u.2 then none else some u.1

/-- The per-frame collision sequence of `Application::Run`: first the
projectile update/expiry sweep, then the projectile-vs-asteroid pass, then
the ship-vs-asteroid pass on the post-projectile-culled asteroid list.
Returns (projectiles, asteroids, flattened ships) after the frame. -/
def frameCollisions (dt : Rat) (ships : List ShipData) (projs : List Projectile)
    (asts : List Asteroid) : List Projectile × List Asteroid × List ShipData :=
  let projs1 := cullProjectiles dt projs
  let r := projAstPass ships projs1 asts
  let r2 := shipAstPass dt r.2.2 r.2.1
  (r.1, r2.2, r2.1)

/-- Modelled from the spec (claim C3 wording): an asteroid update/expiry
sweep run before any collision test, mirroring `cullProjectiles` but with the
asteroid expiry convention (`Update` returns `true` for "still active"). -/
def cullAsteroidsSpec (dt : Rat) (asts : List Asteroid) : List Asteroid :=
  asts.filterMap fun a =>
    let u := a.Update dt
    if u.2 then some u.1 else none

/-- Modelled from the spec (claim C3 wording): the ship-vs-asteroid pass with
the kinematic update factored out — pure collision resolution, asteroids kept
unchanged when nobody is hit. -/
def shipAstPassSpecC3 : List ShipData → List Asteroid → List ShipData × List Asteroid
  | ships, [] => (ships, [])
  | ships, a :: as =>
    match firstAliveHit ships a with
    | some i => shipAstPassSpecC3 (damageAt ships i a.GetDamage) as
    | none =>
      let r := shipAstPassSpecC3 ships as
      (r.1, a :: r.2)

/-- Modelled from the spec (claim C3): the frame in which projectiles *and*
asteroids are moved and expiry-checked independently before any collision
test, and both collision passes then run on the advanced positions. -/
def frameCollisionsSpecC3 (dt : Rat) (ships : List ShipData) (projs : List Projectile)
    (asts : List Asteroid) : List Projectile × List Asteroid × List ShipData :=
  let projs1 := cullProjectiles dt projs
  let asts1 := cullAsteroidsSpec dt asts
  let r := projAstPass ships projs1 asts1
  let r2 := shipAstPassSpecC3 r.2.2 r.2.1
  (r.1, r2.2, r2.1)

/-- The fresh orbiter built inside `Ship::TrySpawnOrbiter`:
`PlayerShip(screenW, screenH, sharedTexture, 0.18f)` (so position is the
screen centre and the radius is `texW * 0.18 * 0.5` for texture width
`texW`) followed by `SetParent(this, GetRadius() + 60.f, 0.f)`. -/
def freshOrbiter (screenW screenH texW : Rat) (parentData : ShipData) : ShipData :=
  { pos := ⟨screenW * (1/2), screenH * (1/2)⟩
    rotation := 0
    hp := 100
    speed := 250
    alive := true
    fireRateLaser := 18
    fireRateBullet := 22
    spacingLaser := 40
    spacingBullet := 20
    hasParent := true
    orbitRadius := parentData.radius + 60
    orbitAngle := 0
    score := 0
    radius := texW * (18/100) * (1/2) }

mutual

/-- `Ship::TrySpawnOrbiter(screenW, screenH, scoreThreshold, sharedTexture)`:
when the score has reached the threshold and the ship has no orbiter, push a
fresh orbiter; then recurse into the orbiters.  In the source the loop also
recurses into the just-pushed orbiter; since that orbiter's score is 0, this
recursion is the identity whenever `0 < thr` — which holds in every call the
program makes (`SCORE_THRESHOLD = 3`); for `thr ≤ 0` the source recursion
would not terminate, and the model applies the identity there too. -/
def Ship.TrySpawnOrbiter (screenW screenH : Rat) (thr : Int) (texW : Rat) :
    Ship → Ship
  | .node d [] =>
    if thr ≤ d.score then
      .node d [.node (freshOrbiter screenW screenH texW d) []]
    else
      .node d []
  | .node d (o :: os) =>
    .node d (TrySpawnOrbiterList screenW screenH thr texW (o :: os))

/-- The `for (auto& orb : orbiters)` recursion of `TrySpawnOrbiter`. -/
def TrySpawnOrbiterList (screenW screenH : Rat) (thr : Int) (texW : Rat) :
    List Ship → List Ship
  | [] => []
  | s :: ss =>
    s.TrySpawnOrbiter screenW screenH thr texW ::
      TrySpawnOrbiterList screenW screenH thr texW ss

end

/-- Number of direct orbiters of the root of a ship tree. -/
def Ship.numOrbiters : Ship → Nat
  | .node _ orbs => orbs.length

/-- `player->IsAlive()` on the root of the ship tree. -/
def rootAlive : Ship → Bool
  | .node d _ => d.alive

/-- The root `PlayerShip(C_WIDTH, C_HEIGHT, &sharedTex)` built at startup and
on restart: centre of the screen, default scale `0.3`, rotation 0. -/
def freshRoot (texW : Rat) : Ship :=
  .node
    { pos := ⟨C_WIDTH * (1/2), C_HEIGHT * (1/2)⟩
      rotation := 0
      hp := 100
      speed := 250
      alive := true
      fireRateLaser := 18
      fireRateBullet := 22
      spacingLaser := 40
      spacingBullet := 20
      hasParent := false
      orbitRadius := 0
      orbitAngle := 0
      score := 0
      radius := texW * (3/10) * (1/2) } []

/-- The mutable simulation state owned by `Application::Run`:
the ship tree, the entity lists and the frame-loop timers. -/
structure AppState where
  player : Ship
  asteroids : List Asteroid
  projectiles : List Projectile
  spawnTimer : Rat
  spawnInterval : Rat
  shotTimer : Rat

/-- The restart branch of the frame loop (`main.cpp` lines 518-524): when the
root ship is dead and the restart key is pressed, replace the root ship,
clear both entity lists, zero the spawn timer and resample the spawn
interval (`newInterval` is the fresh random draw).  Nothing else is touched. -/
def restartStep (texW newInterval : Rat) (rPressed : Bool) (st : AppState) : AppState :=
  if !rootAlive st.player && rPressed then
    { st with
      player := freshRoot texW
      asteroids := []
      projectiles := []
      spawnTimer := 0
      spawnInterval := newInterval }
  else st

/-- A concrete ship state (field values as the `Ship`/`PlayerShip`
constructors set them, with a nominal radius of 10), used to instantiate
the theorems below on explicit inputs. -/
def sampleShip : ShipData :=
  { pos := ⟨0, 0⟩
    rotation := 0
    hp := 100
    speed := 250
    alive := true
    fireRateLaser := 18
    fireRateBullet := 22
    spacingLaser := 40
    spacingBullet := 20
    hasParent := false
    orbitRadius := 0
    orbitAngle := 0
    score := 0
    radius := 10 }

/-- The same ship after death. -/
def deadShip : ShipData := { sampleShip with alive := false }

/-- The sample ship with the spawn threshold already reached. -/
def richShip : ShipData := { sampleShip with score := 3 }

/-- A concrete size-1 triangle asteroid close to the origin. -/
def sampleAst : Asteroid :=
  { pos := ⟨5, 0⟩
    vel := ⟨0, 0⟩
    rotation := 0
    rotationSpeed := 0
    size := 1
    baseDamage := 5
    kind := .TRIANGLE }

/-- A concrete bullet projectile at the origin. -/
def sampleProj : Projectile :=
  { pos := ⟨0, 0⟩, vel := ⟨0, 0⟩, baseDamage := 10, kind := .BULLET }

/-- A concrete trig interface (any values work: the theorems never rely on
trigonometric identities). -/
def sampleTrig : Trig := ⟨0, fun _ => 1, fun _ => 0⟩

/-- An asteroid that is out of collision range of `sampleShip` at its current
position but inside collision range after being advanced by `dt = 1`. -/
def cexAstC3 : Asteroid :=
  { pos := ⟨100, 0⟩
    vel := ⟨-80, 0⟩
    rotation := 0
    rotationSpeed := 0
    size := 1
    baseDamage := 5
    kind := .TRIANGLE }

/-- A two-ship tree (alive root with one alive orbiter). -/
def cexShipC4 : Ship := .node sampleShip [.node sampleShip []]

/-- An application state whose root ship is dead and whose shot timer is
strictly positive (and below the firing interval, so the frame loop's
`fmod` clamp would also leave it unchanged). -/
def cexAppC5 : AppState :=
  { player := .node deadShip []
    asteroids := [sampleAst]
    projectiles := [sampleProj]
    spawnTimer := 5
    spawnInterval := 2
    shotTimer := 1/36 }

theorem shootLoop_stop (i t : Rat) (h : ¬(0 < i ∧ i ≤ t)) : shootLoop i t = (0, t) := by
  rw [shootLoop]
  simp [h]

theorem shootLoop_step (i t : Rat) (h : 0 < i ∧ i ≤ t) :
    shootLoop i t = ((shootLoop i (t - i)).1 + 1, (shootLoop i (t - i)).2) := by
  rw [shootLoop]
  simp [h]

theorem shootLoop_closed_aux (i : Rat) (hi : 0 < i) :
    ∀ (n : Nat) (t : Rat), 0 ≤ t → (⌊t / i⌋).toNat = n →
      shootLoop i t = (n, t - (n : Rat) * i) := by
  intro n
  induction n with
  | zero =>
    intro t ht hn
    have hlt : t < i := by
      by_contra hge
      push_neg at hge
      have h1 : (1 : Rat) ≤ t / i := (one_le_div hi).mpr hge
      have h2 : (1 : Int) ≤ ⌊t / i⌋ := Int.le_floor.mpr (by exact_mod_cast h1)
      omega
    rw [shootLoop_stop i t (by rintro ⟨-, hle⟩; exact absurd hle (not_le.mpr hlt))]
    simp
  | succ n ih =>
    intro t ht hn
    have hfl : (1 : Int) ≤ ⌊t / i⌋ := by omega
    have hit : i ≤ t := by
      have h1 : (1 : Rat) ≤ t / i := by exact_mod_cast Int.le_floor.mp hfl
      exact (one_le_div hi).mp h1
    rw [shootLoop_step i t ⟨hi, hit⟩]
    have hne : i ≠ 0 := ne_of_gt hi
    have hdiv : (t - i) / i = t / i - 1 := by field_simp
    have hflsub : ⌊(t - i) / i⌋ = ⌊t / i⌋ - 1 := by rw [hdiv, Int.floor_sub_one]
    have hn' : (⌊(t - i) / i⌋).toNat = n := by omega
    rw [ih (t - i) (sub_nonneg.mpr hit) hn']
    refine Prod.ext rfl ?_
    push_cast
    ring

theorem shootLoop_closed (i t : Rat) (hi : 0 < i) (ht : 0 ≤ t) :
    shootLoop i t = ((⌊t / i⌋).toNat, t - ((⌊t / i⌋).toNat : Rat) * i) :=
  shootLoop_closed_aux i hi _ t ht rfl

theorem shootLoop_rem_bounds (i t : Rat) (hi : 0 < i) (ht : 0 ≤ t) :
    0 ≤ t - ((⌊t / i⌋).toNat : Rat) * i ∧ t - ((⌊t / i⌋).toNat : Rat) * i < i := by
  have hne : i ≠ 0 := ne_of_gt hi
  have h0 : (0 : Int) ≤ ⌊t / i⌋ := Int.floor_nonneg.mpr (div_nonneg ht hi.le)
  have h1 : ((⌊t / i⌋).toNat : Int) = ⌊t / i⌋ := Int.toNat_of_nonneg h0
  have hcast' : ((⌊t / i⌋).toNat : Rat) = ((⌊t / i⌋ : Int) : Rat) := by
    exact_mod_cast h1
  rw [hcast']
  constructor
  · have h1 : ((⌊t / i⌋ : Int) : Rat) ≤ t / i := Int.floor_le (t / i)
    have h2 : ((⌊t / i⌋ : Int) : Rat) * i ≤ (t / i) * i :=
      mul_le_mul_of_nonneg_right h1 hi.le
    rw [div_mul_cancel₀ t hne] at h2
    linarith
  · have h1 : t / i < ((⌊t / i⌋ : Int) : Rat) + 1 := Int.lt_floor_add_one (t / i)
    have h2 : (t / i) * i < (((⌊t / i⌋ : Int) : Rat) + 1) * i :=
      mul_lt_mul_of_pos_right h1 hi
    rw [div_mul_cancel₀ t hne] at h2
    linarith

theorem findFirstHit_split (p : Projectile) (pre : List Asteroid) (a : Asteroid)
    (post : List Asteroid) (hpre : ∀ b ∈ pre, projectileHits p b = false)
    (hhit : projectileHits p a = true) :
    findFirstHit p (pre ++ a :: post) = some (a, pre ++ post) := by
  induction pre with
  | nil => simp [findFirstHit, hhit]
  | cons b bs ih =>
    have hb : projectileHits p b = false := hpre b (by simp)
    have ih' := ih (fun x hx => hpre x (by simp [hx]))
    simp [findFirstHit, hb, ih']

theorem closestLoop_stall (ppos : Vec2) (l : List ShipData) :
    ∀ (i : Nat) (best : Option Nat) (minD : Rat),
      (∀ s ∈ l, ¬ Vector2DistSq s.pos ppos < minD) →
      closestLoop ppos l i best minD = best := by
  induction l with
  | nil => intro i best minD _; rfl
  | cons s ss ih =>
    intro i best minD h
    have hs : ¬ Vector2DistSq s.pos ppos < minD := h s (by simp)
    simp only [closestLoop, if_neg hs]
    exact ih (i + 1) best minD (fun x hx => h x (by simp [hx]))

theorem closestLoop_split (ppos : Vec2) (spre : List ShipData) (sj : ShipData)
    (spost : List ShipData) :
    ∀ (i : Nat) (best : Option Nat) (minD : Rat),
      Vector2DistSq sj.pos ppos < minD →
      (∀ s ∈ spre, Vector2DistSq sj.pos ppos < Vector2DistSq s.pos ppos) →
      closestLoop ppos (spre ++ sj :: spost) i best minD =
        closestLoop ppos spost (i + spre.length + 1) (some (i + spre.length))
          (Vector2DistSq sj.pos ppos) := by
  induction spre with
  | nil =>
    intro i best minD hb _
    simp [closestLoop, hb]
  | cons s ss ih =>
    intro i best minD hb hl
    have hs : Vector2DistSq sj.pos ppos < Vector2DistSq s.pos ppos := hl s (by simp)
    have hl' : ∀ x ∈ ss, Vector2DistSq sj.pos ppos < Vector2DistSq x.pos ppos :=
      fun x hx => hl x (by simp [hx])
    have harith : i + 1 + ss.length = i + (s :: ss).length := by
      simp only [List.length_cons]
      omega
    by_cases hc : Vector2DistSq s.pos ppos < minD
    · simp only [List.cons_append, closestLoop, if_pos hc, List.append_eq]
      rw [ih (i + 1) (some i) _ hs hl', harith]
    · simp only [List.cons_append, closestLoop, if_neg hc, List.append_eq]
      rw [ih (i + 1) best minD hb hl', harith]

theorem closestShipIdx_split (ppos : Vec2) (spre : List ShipData) (sj : ShipData)
    (spost : List ShipData)
    (hbig : Vector2DistSq sj.pos ppos < (1000000000 : Rat) * 1000000000)
    (hl : ∀ s ∈ spre, Vector2DistSq sj.pos ppos < Vector2DistSq s.pos ppos)
    (hr : ∀ s ∈ spost, Vector2DistSq sj.pos ppos ≤ Vector2DistSq s.pos ppos) :
    closestShipIdx (spre ++ sj :: spost) ppos = some spre.length := by
  unfold closestShipIdx
  rw [closestLoop_split ppos spre sj spost 0 none _ hbig hl]
  rw [closestLoop_stall ppos spost _ _ _ (fun s hs => not_lt.mpr (hr s hs))]
  simp

theorem AddScoreAt_split (spre : List ShipData) (sj : ShipData) (spost : List ShipData) :
    AddScoreAt (spre ++ sj :: spost) spre.length = spre ++ sj.AddScore 1 :: spost := by
  induction spre with
  | nil => rfl
  | cons s ss ih => simp [AddScoreAt, ih]

theorem damageAt_split (spre : List ShipData) (sj : ShipData) (spost : List ShipData)
    (dmg : Int) :
    damageAt (spre ++ sj :: spost) spre.length dmg = spre ++ sj.TakeDamage dmg :: spost := by
  induction spre with
  | nil => rfl
  | cons s ss ih => simp [damageAt, ih]

theorem firstAliveHit_split (spre : List ShipData) (s : ShipData) (spost : List ShipData)
    (a : Asteroid) (hpre : ∀ x ∈ spre, (x.alive && shipHits x a) = false)
    (hs : (s.alive && shipHits s a) = true) :
    firstAliveHit (spre ++ s :: spost) a = some spre.length := by
  induction spre with
  | nil => simp [firstAliveHit, hs]
  | cons x xs ih =>
    have hx : (x.alive && shipHits x a) = false := hpre x (by simp)
    have ih' := ih (fun y hy => hpre y (by simp [hy]))
    simp [firstAliveHit, hx, ih']

theorem firstAliveHit_none (ships : List ShipData) (a : Asteroid)
    (h : ∀ x ∈ ships, (x.alive && shipHits x a) = false) :
    firstAliveHit ships a = none := by
  induction ships with
  | nil => rfl
  | cons x xs ih =>
    have hx : (x.alive && shipHits x a) = false := h x (by simp)
    have ih' := ih (fun y hy => h y (by simp [hy]))
    simp [firstAliveHit, hx, ih']

theorem damageAt_get (ships : List ShipData) :
    ∀ (j i : Nat) (dmg : Int),
      (damageAt ships j dmg).get? i =
        if i = j then (ships.get? i).map (fun s => s.TakeDamage dmg) else ships.get? i := by
  induction ships with
  | nil =>
    intro j i dmg
    simp [damageAt]
  | cons s ss ih =>
    intro j i dmg
    cases j with
    | zero =>
      cases i with
      | zero => simp [damageAt]
      | succ i => simp [damageAt]
    | succ j =>
      cases i with
      | zero => simp [damageAt]
      | succ i =>
        simp only [damageAt, List.get?_cons_succ, ih j i dmg]
        by_cases hij : i = j
        · simp [hij]
        · simp [hij, Nat.succ_ne_succ.mpr hij]

theorem takeDamage_dead (s : ShipData) (h : s.alive = false) (dmg : Int) :
    s.TakeDamage dmg = s := by
  simp [ShipData.TakeDamage, h]

theorem firstAliveHit_alive (ships : List ShipData) (a : Asteroid) :
    ∀ j, firstAliveHit ships a = some j →
      ∃ s, ships.get? j = some s ∧ s.alive = true := by
  induction ships with
  | nil => intro j h; simp [firstAliveHit] at h
  | cons x xs ih =>
    intro j h
    by_cases hx : (x.alive && shipHits x a) = true
    · simp [firstAliveHit, hx] at h
      subst h
      have hx' : x.alive = true ∧ shipHits x a = true := by simpa using hx
      exact ⟨x, rfl, hx'.1⟩
    · simp only [firstAliveHit, if_neg hx] at h
      cases hrec : firstAliveHit xs a with
      | none => rw [hrec] at h; simp at h
      | some j' =>
        rw [hrec] at h
        simp at h
        obtain ⟨s, hs, hal⟩ := ih j' hrec
        exact ⟨s, by rw [← h]; simpa using hs, hal⟩

theorem shipAstPass_dead (dt : Rat) (asts : List Asteroid) :
    ∀ (ships : List ShipData) (i : Nat) (s : ShipData),
      ships.get? i = some s → s.alive = false →
      (shipAstPass dt ships asts).1.get? i = some s := by
  induction asts with
  | nil =>
    intro ships i s hget hdead
    simpa [shipAstPass] using hget
  | cons a as ih =>
    intro ships i s hget hdead
    cases hfa : firstAliveHit ships a with
    | some j =>
      simp only [shipAstPass, hfa]
      refine ih (damageAt ships j a.GetDamage) i s ?_ hdead
      rw [damageAt_get ships j i a.GetDamage]
      by_cases hij : i = j
      · rw [if_pos hij, hget]
        simp [takeDamage_dead s hdead]
      · rw [if_neg hij, hget]
    | none =>
      simp only [shipAstPass, hfa]
      split
      · exact ih ships i s hget hdead
      · exact ih ships i s hget hdead

theorem TrySpawnOrbiterList_length (screenW screenH : Rat) (thr : Int) (texW : Rat)
    (l : List Ship) :
    (TrySpawnOrbiterList screenW screenH thr texW l).length = l.length := by
  induction l with
  | nil => rfl
  | cons s ss ih => simp [TrySpawnOrbiterList, ih]

theorem Asteroid.Update_fst (dt : Rat) (a : Asteroid) :
    (Asteroid.Update dt a).1 =
      { a with
        pos := Vector2Add a.pos (Vector2Scale a.vel dt)
        rotation := a.rotation + a.rotationSpeed * dt } := by
  simp only [Asteroid.Update]
  split <;> rfl

/-- C6 counterexample: as literally stated ("for every damage amount"),
`TakeDamage` can increase hp — the C++ parameter is a signed `int`, and a
negative amount heals: at `dmg = -5` the sample ship's hp grows from 100 to
105. -/
theorem claim_C6_cex : (sampleShip.TakeDamage (-5)).hp > sampleShip.hp := by decide

/-- C6 (amended: restricted to nonnegative damage amounts, which is every
amount the program ever passes): `TakeDamage` never increases hp, is a no-op
on a dead ship, otherwise subtracts the amount and clears `alive` exactly
when the resulting hp is ≤ 0, and `alive` never goes from `false` back to
`true`. -/
theorem claim_C6 : ∀ (s : ShipData) (dmg : Int), 0 ≤ dmg →
    ((s.TakeDamage dmg).hp ≤ s.hp) ∧
    (s.alive = false → s.TakeDamage dmg = s) ∧
    (s.alive = true → (s.TakeDamage dmg).hp = s.hp - dmg ∧
      ((s.TakeDamage dmg).alive = false ↔ s.hp - dmg ≤ 0)) ∧
    (∀ dmg' : Int, s.alive = false → (s.TakeDamage dmg').alive = false) := by
  intro s dmg hd
  have hdead : ∀ dmg' : Int, s.alive = false → s.TakeDamage dmg' = s := by
    intro dmg' h
    simp [ShipData.TakeDamage, h]
  have halive : s.alive = true → s.TakeDamage dmg =
      { s with hp := s.hp - dmg, alive := if s.hp - dmg ≤ 0 then false else s.alive } := by
    intro h
    simp [ShipData.TakeDamage, h]
  refine ⟨?_, hdead dmg, ?_, fun dmg' h => by rw [hdead dmg' h, h]⟩
  · cases hal : s.alive with
    | false => rw [hdead dmg hal]
    | true =>
      rw [halive hal]
      show s.hp - dmg ≤ s.hp
      omega
  · intro hal
    rw [halive hal]
    refine ⟨rfl, ?_⟩
    by_cases h0 : s.hp - dmg ≤ 0
    · simp [h0]
    · simp [h0, hal]

/-- C6 witness: the amended theorem applied at damage 20 on the live sample
ship and on the dead ship. -/
theorem claim_C6_witness :
    (0 : Int) ≤ 20 ∧ (sampleShip.TakeDamage 20).hp ≤ sampleShip.hp ∧
    deadShip.TakeDamage 20 = deadShip :=
  ⟨by decide, (claim_C6 sampleShip 20 (by decide)).1,
   (claim_C6 deadShip 20 (by decide)).2.1 rfl⟩

/-- C8: for every asteroid built by `Asteroid::init` with size draw `k ≤ 2`,
the size tier `1 << k` lies in {1,2,4} (and the draw map is injective, so a
uniform draw of `k` gives a uniform tier), `GetRadius = 16 × tier`,
`GetDamage = baseDamageForShape × tier` with base damage 5/10/15 for
triangle/square/pentagon, and `Update` (the only asteroid mutation in the
program) never changes the tier or the shape. -/
theorem claim_C8 : ∀ (kind : AstKind) (k : Nat) (pos vel : Vec2) (rot rsp dt : Rat),
    k ≤ 2 →
    ((MakeAsteroidState kind k pos vel rot rsp).size = 1 ∨
     (MakeAsteroidState kind k pos vel rot rsp).size = 2 ∨
     (MakeAsteroidState kind k pos vel rot rsp).size = 4) ∧
    (MakeAsteroidState kind k pos vel rot rsp).GetRadius =
      16 * ((MakeAsteroidState kind k pos vel rot rsp).size : Rat) ∧
    (MakeAsteroidState kind k pos vel rot rsp).GetDamage =
      shapeBaseDamage kind * ((MakeAsteroidState kind k pos vel rot rsp).size : Int) ∧
    shapeBaseDamage .TRIANGLE = 5 ∧ shapeBaseDamage .SQUARE = 10 ∧
    shapeBaseDamage .PENTAGON = 15 ∧
    (∀ k', k' ≤ 2 →
      (MakeAsteroidState kind k pos vel rot rsp).size =
        (MakeAsteroidState kind k' pos vel rot rsp).size → k = k') ∧
    ((MakeAsteroidState kind k pos vel rot rsp).Update dt).1.size =
      (MakeAsteroidState kind k pos vel rot rsp).size ∧
    ((MakeAsteroidState kind k pos vel rot rsp).Update dt).1.kind =
      (MakeAsteroidState kind k pos vel rot rsp).kind := by
  intro kind k pos vel rot rsp dt hk
  refine ⟨?_, rfl, rfl, rfl, rfl, rfl, ?_, ?_, ?_⟩
  · interval_cases k <;> simp [MakeAsteroidState]
  · intro k' hk' h
    simp only [MakeAsteroidState] at h
    interval_cases k <;> interval_cases k' <;> simp_all
  · rw [Asteroid.Update_fst]
  · rw [Asteroid.Update_fst]

/-- C8 witness: the theorem applied to a square asteroid with size draw 1
(tier 2). -/
theorem claim_C8_witness :
    (1 : Nat) ≤ 2 ∧
    ((MakeAsteroidState .SQUARE 1 ⟨0, 0⟩ ⟨0, 0⟩ 0 0).size = 1 ∨
     (MakeAsteroidState .SQUARE 1 ⟨0, 0⟩ ⟨0, 0⟩ 0 0).size = 2 ∨
     (MakeAsteroidState .SQUARE 1 ⟨0, 0⟩ ⟨0, 0⟩ 0 0).size = 4) ∧
    (MakeAsteroidState .SQUARE 1 ⟨0, 0⟩ ⟨0, 0⟩ 0 0).GetDamage =
      shapeBaseDamage .SQUARE * ((MakeAsteroidState .SQUARE 1 ⟨0, 0⟩ ⟨0, 0⟩ 0 0).size : Int) :=
  ⟨by decide, (claim_C8 .SQUARE 1 ⟨0, 0⟩ ⟨0, 0⟩ 0 0 1 (by decide)).1,
   (claim_C8 .SQUARE 1 ⟨0, 0⟩ ⟨0, 0⟩ 0 0 1 (by decide)).2.2.1⟩

/-- C9: a dead ship's `ShootAll` emits nothing (the early return precedes
both the timer update and the recursion into descendants) and leaves the
shared timer unchanged; and the ship-vs-asteroid pass leaves every ship
whose `alive` flag is `false` completely untouched. -/
theorem claim_C9 :
    (∀ (tg : Trig) (w : WeaponType) (dt : Rat) (d : ShipData) (orbs : List Ship)
        (st : List Projectile × Rat), d.alive = false →
      Ship.ShootAll tg w dt (.node d orbs) st = st) ∧
    (∀ (dt : Rat) (ships : List ShipData) (asts : List Asteroid) (i : Nat) (s : ShipData),
      ships.get? i = some s → s.alive = false →
      (shipAstPass dt ships asts).1.get? i = some s) := by
  constructor
  · intro tg w dt d orbs st h
    simp [Ship.ShootAll, h]
  · intro dt ships asts i s hget hdead
    exact shipAstPass_dead dt asts ships i s hget hdead

/-- C9 witness: the dead root with one alive orbiter fires nothing and keeps
the timer, and the ship pass leaves the dead ship's entry intact. -/
theorem claim_C9_witness :
    deadShip.alive = false ∧
    Ship.ShootAll sampleTrig .LASER 1 (.node deadShip [.node sampleShip []]) ([], 0) = ([], 0) ∧
    (shipAstPass 1 [deadShip] [sampleAst]).1.get? 0 = some deadShip :=
  ⟨rfl, claim_C9.1 sampleTrig .LASER 1 deadShip [.node sampleShip []] ([], 0) rfl,
   claim_C9.2 1 [deadShip] [sampleAst] 0 deadShip rfl rfl⟩

/-- C10: for a positive fire rate and nonnegative timer and dt, the emission
loop of `ShootAll` terminates with exactly `⌊(timer+dt)·fireRate⌋` emissions
(written via the interval `1/fireRate`), and the final timer lies in
`[0, interval)`. -/
theorem claim_C10 : ∀ (d : ShipData) (w : WeaponType) (timer dt : Rat),
    0 < d.GetFireRate w → 0 ≤ timer → 0 ≤ dt →
    shootLoop (1 / d.GetFireRate w) (timer + dt) =
      ((⌊(timer + dt) / (1 / d.GetFireRate w)⌋).toNat,
       (timer + dt) -
         ((⌊(timer + dt) / (1 / d.GetFireRate w)⌋).toNat : Rat) * (1 / d.GetFireRate w)) ∧
    0 ≤ (timer + dt) -
        ((⌊(timer + dt) / (1 / d.GetFireRate w)⌋).toNat : Rat) * (1 / d.GetFireRate w) ∧
    (timer + dt) -
        ((⌊(timer + dt) / (1 / d.GetFireRate w)⌋).toNat : Rat) * (1 / d.GetFireRate w) <
      1 / d.GetFireRate w := by
  intro d w timer dt hfr ht hdt
  have hi : 0 < 1 / d.GetFireRate w := by positivity
  have htd : 0 ≤ timer + dt := by linarith
  exact ⟨shootLoop_closed _ _ hi htd, (shootLoop_rem_bounds _ _ hi htd).1,
    (shootLoop_rem_bounds _ _ hi htd).2⟩

/-- C10 witness: the sample ship's laser interval is 1/18; with
`timer = 1/36` and `dt = 1/12` the loop emits exactly 2 projectiles and ends
with timer 0. -/
theorem claim_C10_witness :
    (0 : Rat) < sampleShip.GetFireRate .LASER ∧
    shootLoop (1 / sampleShip.GetFireRate .LASER) (1/36 + 1/12) = (2, 0) := by
  refine ⟨by decide, ?_⟩
  have h := (claim_C10 sampleShip .LASER (1/36) (1/12) (by decide) (by norm_num)
    (by norm_num)).1
  rw [h]
  norm_num [ShipData.GetFireRate, sampleShip]
  exact ⟨rfl, by show (1 : Rat)/9 - ((2 : Nat) : Rat) * (1/18) = 0; norm_num⟩

theorem projectileHits_sample : projectileHits sampleProj sampleAst = true := by
  norm_num [projectileHits, sampleProj, sampleAst, Projectile.GetRadius,
    Asteroid.GetRadius, Vector2DistSq]

theorem shipHits_sample : shipHits sampleShip sampleAst = true := by
  norm_num [shipHits, sampleShip, sampleAst, Asteroid.GetRadius, Vector2DistSq]

theorem shipHits_cexAstC3_false : shipHits sampleShip cexAstC3 = false := by
  norm_num [shipHits, sampleShip, cexAstC3, Asteroid.GetRadius, Vector2DistSq]

theorem distSq_sample_small :
    Vector2DistSq sampleShip.pos sampleProj.pos < (1000000000 : Rat) * 1000000000 := by
  norm_num [sampleShip, sampleProj, Vector2DistSq]

theorem cexAstC3_update_active : (cexAstC3.Update 1).2 = true := by
  norm_num [Asteroid.Update, cexAstC3, Asteroid.GetRadius, Vector2Add, Vector2Scale,
    C_WIDTH, C_HEIGHT]

theorem shipHits_cexAstC3_moved : shipHits sampleShip (cexAstC3.Update 1).1 = true := by
  norm_num [Asteroid.Update_fst, shipHits, sampleShip, cexAstC3, Asteroid.GetRadius,
    Vector2DistSq, Vector2Add, Vector2Scale]

/-- C1: in the projectile-vs-asteroid pass, a projectile that misses every
asteroid of `pre` and hits `a` removes exactly `a` and itself, adds exactly
+1 score to the ship of the flattened list closest to the projectile's
position (strictly closer than every earlier ship, at least as close as
every later one — the scan keeps the first strict minimum — and within the
1e9 initial bound), and destroys no further asteroid: the pass continues
with the remaining projectiles.  Moreover the frame runs this whole pass
before the ship-vs-asteroid pass, which receives the post-projectile-culled
asteroid list. -/
theorem claim_C1 :
    (∀ (spre : List ShipData) (sj : ShipData) (spost : List ShipData)
        (p : Projectile) (ps : List Projectile)
        (pre : List Asteroid) (a : Asteroid) (post : List Asteroid),
      (∀ b ∈ pre, projectileHits p b = false) →
      projectileHits p a = true →
      Vector2DistSq sj.pos p.pos < (1000000000 : Rat) * 1000000000 →
      (∀ s ∈ spre, Vector2DistSq sj.pos p.pos < Vector2DistSq s.pos p.pos) →
      (∀ s ∈ spost, Vector2DistSq sj.pos p.pos ≤ Vector2DistSq s.pos p.pos) →
      projAstPass (spre ++ sj :: spost) (p :: ps) (pre ++ a :: post) =
        projAstPass (spre ++ sj.AddScore 1 :: spost) ps (pre ++ post)) ∧
    (∀ (dt : Rat) (ships : List ShipData) (projs : List Projectile) (asts : List Asteroid),
      frameCollisions dt ships projs asts =
        ((projAstPass ships (cullProjectiles dt projs) asts).1,
         (shipAstPass dt (projAstPass ships (cullProjectiles dt projs) asts).2.2
            (projAstPass ships (cullProjectiles dt projs) asts).2.1).2,
         (shipAstPass dt (projAstPass ships (cullProjectiles dt projs) asts).2.2
            (projAstPass ships (cullProjectiles dt projs) asts).2.1).1)) := by
  constructor
  · intro spre sj spost p ps pre a post hpre hhit hbig hl hr
    simp only [projAstPass, findFirstHit_split p pre a post hpre hhit,
      closestShipIdx_split p.pos spre sj spost hbig hl hr, AddScoreAt_split]
  · intro dt ships projs asts
    rfl

/-- C1 witness: a bullet at the origin destroys the size-1 asteroid at
(5,0), the single sample ship scores +1, and the frame composition is the
two passes in order. -/
theorem claim_C1_witness :
    projectileHits sampleProj sampleAst = true ∧
    projAstPass [sampleShip] [sampleProj] [sampleAst] =
      projAstPass [sampleShip.AddScore 1] [] [] ∧
    frameCollisions 1 [sampleShip] [] [] =
      ((projAstPass [sampleShip] (cullProjectiles 1 []) []).1,
       (shipAstPass 1 (projAstPass [sampleShip] (cullProjectiles 1 []) []).2.2
          (projAstPass [sampleShip] (cullProjectiles 1 []) []).2.1).2,
       (shipAstPass 1 (projAstPass [sampleShip] (cullProjectiles 1 []) []).2.2
          (projAstPass [sampleShip] (cullProjectiles 1 []) []).2.1).1) :=
  ⟨projectileHits_sample,
   claim_C1.1 [] sampleShip [] sampleProj [] [] sampleAst []
     (by simp) projectileHits_sample distSq_sample_small (by simp) (by simp),
   claim_C1.2 1 [sampleShip] [] []⟩

/-- C2: in the ship-vs-asteroid pass, an asteroid colliding with an alive
ship (the first alive in-range ship of the flattened list) applies its
damage to that ship via `TakeDamage` and is removed; an asteroid colliding
with no alive ship is removed exactly when its own `Update` expiry check
reports it expired (and is kept, advanced, otherwise). -/
theorem claim_C2 :
    (∀ (dt : Rat) (spre : List ShipData) (s : ShipData) (spost : List ShipData)
        (a : Asteroid) (as : List Asteroid),
      (∀ x ∈ spre, (x.alive && shipHits x a) = false) →
      s.alive = true → shipHits s a = true →
      shipAstPass dt (spre ++ s :: spost) (a :: as) =
        shipAstPass dt (spre ++ s.TakeDamage a.GetDamage :: spost) as) ∧
    (∀ (dt : Rat) (ships : List ShipData) (a : Asteroid) (as : List Asteroid),
      (∀ x ∈ ships, (x.alive && shipHits x a) = false) →
      shipAstPass dt ships (a :: as) =
        (if (a.Update dt).2 then
          ((shipAstPass dt ships as).1, (a.Update dt).1 :: (shipAstPass dt ships as).2)
         else shipAstPass dt ships as)) := by
  constructor
  · intro dt spre s spost a as hpre hs hhit
    have h1 : firstAliveHit (spre ++ s :: spost) a = some spre.length :=
      firstAliveHit_split spre s spost a hpre (by simp [hs, hhit])
    simp only [shipAstPass, h1, damageAt_split]
  · intro dt ships a as h
    have h1 : firstAliveHit ships a = none := firstAliveHit_none ships a h
    simp only [shipAstPass, h1]

/-- C2 witness: the sample ship takes the sample asteroid's damage and the
asteroid is removed; for a dead ship the asteroid instead runs its expiry
check. -/
theorem claim_C2_witness :
    sampleShip.alive = true ∧ shipHits sampleShip sampleAst = true ∧
    shipAstPass 1 [sampleShip] [sampleAst] =
      shipAstPass 1 [sampleShip.TakeDamage sampleAst.GetDamage] [] ∧
    shipAstPass 1 [deadShip] [sampleAst] =
      (if (sampleAst.Update 1).2 then
        ((shipAstPass 1 [deadShip] []).1, (sampleAst.Update 1).1 :: (shipAstPass 1 [deadShip] []).2)
       else shipAstPass 1 [deadShip] []) :=
  ⟨rfl, shipHits_sample,
   claim_C2.1 1 [] sampleShip [] sampleAst [] (by simp) rfl shipHits_sample,
   claim_C2.2 1 [deadShip] sampleAst [] (by simp [deadShip])⟩

/-- C3 counterexample: the claim as stated (asteroids already advanced by dt
before any collision test of the frame) is false.  With the sample ship at
the origin and `cexAstC3` at (100,0) moving left at 80/s with `dt = 1`, the
code tests the un-advanced position (no hit, asteroid survives, ship
undamaged), while the claimed advance-first frame would register a hit. -/
theorem claim_C3_cex :
    frameCollisions 1 [sampleShip] [] [cexAstC3] ≠
      frameCollisionsSpecC3 1 [sampleShip] [] [cexAstC3] := by
  have halive : sampleShip.alive = true := rfl
  have h1 : (frameCollisions 1 [sampleShip] [] [cexAstC3]).2.1.length = 1 := by
    simp [frameCollisions, cullProjectiles, projAstPass, shipAstPass, firstAliveHit,
      halive, shipHits_cexAstC3_false, cexAstC3_update_active]
  have h2 : (frameCollisionsSpecC3 1 [sampleShip] [] [cexAstC3]).2.1.length = 0 := by
    simp [frameCollisionsSpecC3, cullProjectiles, cullAsteroidsSpec, projAstPass,
      shipAstPassSpecC3, firstAliveHit, halive, cexAstC3_update_active,
      shipHits_cexAstC3_moved, damageAt]
  intro h
  rw [h, h2] at h1
  exact absurd h1 (by decide)

/-- C3 (amended): projectiles are advanced by dt and expiry-culled before
both collision passes, but asteroids are tested at their previous-frame
positions in both passes; an asteroid's kinematic update and off-screen
expiry run inside the ship-vs-asteroid pass, and only for asteroids that
collide with no alive ship (a colliding asteroid is removed un-advanced). -/
theorem claim_C3 :
    (∀ (dt : Rat) (ships : List ShipData) (projs : List Projectile) (asts : List Asteroid),
      frameCollisions dt ships projs asts =
        ((projAstPass ships (cullProjectiles dt projs) asts).1,
         (shipAstPass dt (projAstPass ships (cullProjectiles dt projs) asts).2.2
            (projAstPass ships (cullProjectiles dt projs) asts).2.1).2,
         (shipAstPass dt (projAstPass ships (cullProjectiles dt projs) asts).2.2
            (projAstPass ships (cullProjectiles dt projs) asts).2.1).1)) ∧
    (∀ (dt : Rat) (spre : List ShipData) (s : ShipData) (spost : List ShipData)
        (a : Asteroid) (as : List Asteroid),
      (∀ x ∈ spre, (x.alive && shipHits x a) = false) →
      s.alive = true → shipHits s a = true →
      shipAstPass dt (spre ++ s :: spost) (a :: as) =
        shipAstPass dt (spre ++ s.TakeDamage a.GetDamage :: spost) as) ∧
    (∀ (dt : Rat) (ships : List ShipData) (a : Asteroid) (as : List Asteroid),
      (∀ x ∈ ships, (x.alive && shipHits x a) = false) →
      shipAstPass dt ships (a :: as) =
        (if (a.Update dt).2 then
          ((shipAstPass dt ships as).1, (a.Update dt).1 :: (shipAstPass dt ships as).2)
         else shipAstPass dt ships as)) := by
  refine ⟨fun dt ships projs asts => rfl, ?_, ?_⟩
  · intro dt spre s spost a as hpre hs hhit
    have h1 : firstAliveHit (spre ++ s :: spost) a = some spre.length :=
      firstAliveHit_split spre s spost a hpre (by simp [hs, hhit])
    simp only [shipAstPass, h1, damageAt_split]
  · intro dt ships a as h
    have h1 : firstAliveHit ships a = none := firstAliveHit_none ships a h
    simp only [shipAstPass, h1]

/-- C3 witness: the amended theorem instantiated on the counterexample
scenario — the non-colliding asteroid is advanced inside the ship pass. -/
theorem claim_C3_witness :
    frameCollisions 1 [sampleShip] [] [cexAstC3] =
      ((projAstPass [sampleShip] (cullProjectiles 1 []) [cexAstC3]).1,
       (shipAstPass 1 (projAstPass [sampleShip] (cullProjectiles 1 []) [cexAstC3]).2.2
          (projAstPass [sampleShip] (cullProjectiles 1 []) [cexAstC3]).2.1).2,
       (shipAstPass 1 (projAstPass [sampleShip] (cullProjectiles 1 []) [cexAstC3]).2.2
          (projAstPass [sampleShip] (cullProjectiles 1 []) [cexAstC3]).2.1).1) ∧
    shipAstPass 1 [sampleShip] [cexAstC3] =
      (if (cexAstC3.Update 1).2 then
        ((shipAstPass 1 [sampleShip] []).1,
         (cexAstC3.Update 1).1 :: (shipAstPass 1 [sampleShip] []).2)
       else shipAstPass 1 [sampleShip] []) :=
  ⟨claim_C3.1 1 [sampleShip] [] [cexAstC3],
   claim_C3.2.2 1 [sampleShip] cexAstC3 [] (by simp [shipHits_cexAstC3_false])⟩

/-- C5 counterexample: restart does not reset the firing shot timer.  On a
state with a dead root and `shotTimer = 1/36`, pressing restart rebuilds the
ship tree, clears both entity lists and zeroes the spawn timer, yet the shot
timer stays 1/36 ≠ 0 — so "all timers are reset" is false as stated. -/
theorem claim_C5_cex :
    (restartStep 100 1 true cexAppC5).asteroids = [] ∧
    (restartStep 100 1 true cexAppC5).projectiles = [] ∧
    (restartStep 100 1 true cexAppC5).spawnTimer = 0 ∧
    (restartStep 100 1 true cexAppC5).shotTimer ≠ 0 := by
  refine ⟨rfl, rfl, rfl, ?_⟩
  norm_num [restartStep, cexAppC5, rootAlive, deadShip, sampleShip]

/-- C5 (amended): when the root is dead and restart is pressed, the ship
tree is replaced by a fresh root, the asteroid and projectile lists become
empty, the asteroid spawn timer is reset (and the spawn interval resampled),
but the firing shot timer is left unchanged; otherwise the state is
untouched. -/
theorem claim_C5 : ∀ (texW newInterval : Rat) (r : Bool) (st : AppState),
    (rootAlive st.player = false → r = true →
      restartStep texW newInterval r st =
        { player := freshRoot texW, asteroids := [], projectiles := [],
          spawnTimer := 0, spawnInterval := newInterval, shotTimer := st.shotTimer }) ∧
    (rootAlive st.player = true ∨ r = false →
      restartStep texW newInterval r st = st) := by
  intro texW ni r st
  obtain ⟨pl, asts, prs, sT, sI, shT⟩ := st
  constructor
  · intro hdead hr
    simp [restartStep, hdead, hr]
  · rintro (h | h)
    · simp [restartStep, h]
    · simp [restartStep, h]

/-- C5 witness: the amended theorem applied to the dead-root state (rebuild
with preserved shot timer) and with the key not pressed (no-op). -/
theorem claim_C5_witness :
    rootAlive cexAppC5.player = false ∧
    restartStep 100 1 true cexAppC5 =
      { player := freshRoot 100, asteroids := [], projectiles := [],
        spawnTimer := 0, spawnInterval := 1, shotTimer := cexAppC5.shotTimer } ∧
    restartStep 100 1 false cexAppC5 = cexAppC5 :=
  ⟨rfl, (claim_C5 100 1 true cexAppC5).1 rfl rfl,
   (claim_C5 100 1 false cexAppC5).2 (Or.inr rfl)⟩

/-- C7: when `0 < threshold` (the program always calls with threshold 3),
`TrySpawnOrbiter` creates exactly one orbiter — bound with
`orbitRadius = parent radius + 60` and `orbitAngle = 0` — iff the score has
reached the threshold and the child list is empty; with a child present the
direct child count never grows (so a second call is idempotent in that
respect), and the call always recurses into the existing children. -/
theorem claim_C7 : ∀ (screenW screenH : Rat) (thr : Int) (texW : Rat), 0 < thr →
    (∀ d : ShipData, thr ≤ d.score →
      Ship.TrySpawnOrbiter screenW screenH thr texW (.node d []) =
        .node d [.node (freshOrbiter screenW screenH texW d) []]) ∧
    (∀ d : ShipData, (freshOrbiter screenW screenH texW d).orbitRadius = d.radius + 60 ∧
      (freshOrbiter screenW screenH texW d).orbitAngle = 0 ∧
      (freshOrbiter screenW screenH texW d).hasParent = true ∧
      (freshOrbiter screenW screenH texW d).score = 0) ∧
    (∀ d : ShipData, d.score < thr →
      Ship.TrySpawnOrbiter screenW screenH thr texW (.node d []) = .node d []) ∧
    (∀ (d : ShipData) (o : Ship) (os : List Ship),
      Ship.TrySpawnOrbiter screenW screenH thr texW (.node d (o :: os)) =
        .node d (TrySpawnOrbiterList screenW screenH thr texW (o :: os))) ∧
    (∀ (d : ShipData) (o : Ship) (os : List Ship),
      (Ship.TrySpawnOrbiter screenW screenH thr texW (.node d (o :: os))).numOrbiters =
        (o :: os).length) ∧
    (∀ d : ShipData,
      (Ship.TrySpawnOrbiter screenW screenH thr texW
        (Ship.TrySpawnOrbiter screenW screenH thr texW (.node d []))).numOrbiters =
      (Ship.TrySpawnOrbiter screenW screenH thr texW (.node d [])).numOrbiters) := by
  intro screenW screenH thr texW hthr
  refine ⟨?_, fun d => ⟨rfl, rfl, rfl, rfl⟩, ?_, fun d o os => rfl, ?_, ?_⟩
  · intro d h
    simp [Ship.TrySpawnOrbiter, h]
  · intro d h
    simp [Ship.TrySpawnOrbiter, not_le.mpr h]
  · intro d o os
    show (Ship.node d (TrySpawnOrbiterList screenW screenH thr texW (o :: os))).numOrbiters = _
    simp [Ship.numOrbiters, TrySpawnOrbiterList_length]
  · intro d
    by_cases h : thr ≤ d.score
    · simp [Ship.TrySpawnOrbiter, h, Ship.numOrbiters, TrySpawnOrbiterList, TrySpawnOrbiterList_length]
    · simp [Ship.TrySpawnOrbiter, h, Ship.numOrbiters]

/-- C7 witness: at threshold 3, the sample ship with score 3 spawns exactly
one orbiter bound at `radius + 60`, angle 0, and a second call adds none. -/
theorem claim_C7_witness :
    (0 : Int) < 3 ∧ (3 : Int) ≤ richShip.score ∧
    Ship.TrySpawnOrbiter 1600 1600 3 100 (.node richShip []) =
      .node richShip [.node (freshOrbiter 1600 1600 100 richShip) []] ∧
    (freshOrbiter 1600 1600 100 richShip).orbitRadius = richShip.radius + 60 ∧
    (freshOrbiter 1600 1600 100 richShip).orbitAngle = 0 ∧
    (Ship.TrySpawnOrbiter 1600 1600 3 100
       (Ship.TrySpawnOrbiter 1600 1600 3 100 (.node richShip []))).numOrbiters =
      (Ship.TrySpawnOrbiter 1600 1600 3 100 (.node richShip [])).numOrbiters :=
  ⟨by decide, by decide,
   (claim_C7 1600 1600 3 100 (by decide)).1 richShip (by decide),
   ((claim_C7 1600 1600 3 100 (by decide)).2.1 richShip).1,
   ((claim_C7 1600 1600 3 100 (by decide)).2.1 richShip).2.1,
   (claim_C7 1600 1600 3 100 (by decide)).2.2.2.2.2 richShip⟩

/-- C4 counterexample: the claim fails as stated.  Taking the firing
interval `i = 1/18` (laser), a shot timer of `2·i` and a `dt` covering that
span (`dt = 2·i`), a subtree consisting of an alive root with one alive
orbiter emits 6 projectiles (the root's loop runs on `timer + dt = 4·i` and
emits 4, then the orbiter re-adds `dt` to the shared timer and emits 2),
not exactly 2. -/
theorem claim_C4_cex :
    (Ship.ShootAll sampleTrig .LASER (2 * (1 / sampleShip.GetFireRate .LASER)) cexShipC4
      ([], 2 * (1 / sampleShip.GetFireRate .LASER))).1.length ≠ 2 := by
  have hfr : sampleShip.GetFireRate .LASER = 18 := rfl
  have halive : sampleShip.alive = true := rfl
  have hcall : (2 : Rat) * (1 / sampleShip.GetFireRate .LASER) = 1/9 := by
    rw [hfr]; norm_num
  rw [hcall]
  have hA : shootLoop ((1:Rat)/18) ((1:Rat)/9 + 1/9) = (4, 0) := by
    rw [show (1:Rat)/9 + 1/9 = 2/9 from by norm_num,
      shootLoop_closed ((1:Rat)/18) (2/9) (by norm_num) (by norm_num),
      show ((2:Rat)/9) / (1/18) = 4 from by norm_num,
      show ⌊(4:Rat)⌋ = 4 from by norm_num]
    refine Prod.ext rfl ?_
    show (2:Rat)/9 - ((4:Nat):Rat) * (1/18) = 0
    norm_num
  have hB : shootLoop ((1:Rat)/18) ((1:Rat)/9) = (2, 0) := by
    rw [shootLoop_closed ((1:Rat)/18) (1/9) (by norm_num) (by norm_num),
      show ((1:Rat)/9) / (1/18) = 2 from by norm_num,
      show ⌊(2:Rat)⌋ = 2 from by norm_num]
    refine Prod.ext rfl ?_
    show (1:Rat)/9 - ((2:Nat):Rat) * (1/18) = 0
    norm_num
  simp only [one_div] at hA hB
  simp [cexShipC4, Ship.ShootAll, ShootAllList, halive, hfr, hA, hB]

/-- C4 (amended: for an alive ship with no orbiters, reading "shotTimer and
dt covering two intervals" as `shotTimer + dt = 2 × interval`; with alive
orbiters the shared-timer recursion emits more projectiles, see the
counterexample): `ShootAll` emits exactly 2 projectiles, each starting at
the muzzle point (ship position plus the `(0, -radius)` offset rotated by
the ship's facing) with speed `spacing × fireRate`, and leaves the timer at
0, inside `[0, interval)`. -/
theorem claim_C4 : ∀ (tg : Trig) (w : WeaponType) (d : ShipData)
    (projs : List Projectile) (timer dt : Rat),
    d.alive = true → 0 < d.GetFireRate w →
    timer + dt = 2 * (1 / d.GetFireRate w) →
    Ship.ShootAll tg w dt (.node d []) (projs, timer) =
      (projs ++ List.replicate 2 (MakeProjectile tg w (muzzlePoint tg d)
        (d.GetSpacing w * d.GetFireRate w) d.rotation), 0) ∧
    (0 : Rat) < 1 / d.GetFireRate w := by
  intro tg w d projs timer dt halive hfr htot
  have hi : (0:Rat) < 1 / d.GetFireRate w := by positivity
  refine ⟨?_, hi⟩
  have hfl : ⌊(2 * (1 / d.GetFireRate w)) / (1 / d.GetFireRate w)⌋ = 2 := by
    rw [mul_div_assoc, div_self (ne_of_gt hi)]
    norm_num
  have hloop : shootLoop (1 / d.GetFireRate w) (timer + dt) = (2, 0) := by
    rw [htot, shootLoop_closed _ _ hi (by positivity), hfl]
    refine Prod.ext rfl ?_
    show 2 * (1 / d.GetFireRate w) - ((2:Nat):Rat) * (1 / d.GetFireRate w) = 0
    push_cast
    ring
  simp only [one_div] at hloop
  simp [Ship.ShootAll, ShootAllList, halive, hloop]

/-- C4 witness: the sample ship (laser rate 18, interval 1/18) with
`timer = dt = 1/18` emits exactly two projectiles and ends with timer 0. -/
theorem claim_C4_witness :
    sampleShip.alive = true ∧ (0:Rat) < sampleShip.GetFireRate .LASER ∧
    (1/18 : Rat) + 1/18 = 2 * (1 / sampleShip.GetFireRate .LASER) ∧
    Ship.ShootAll sampleTrig .LASER (1/18) (.node sampleShip []) ([], 1/18) =
      ([] ++ List.replicate 2 (MakeProjectile sampleTrig .LASER
        (muzzlePoint sampleTrig sampleShip)
        (sampleShip.GetSpacing .LASER * sampleShip.GetFireRate .LASER)
        sampleShip.rotation), 0) :=
  ⟨rfl, by norm_num [ShipData.GetFireRate, sampleShip],
   by norm_num [ShipData.GetFireRate, sampleShip],
   (claim_C4 sampleTrig .LASER sampleShip [] (1/18) (1/18) rfl
     (by norm_num [ShipData.GetFireRate, sampleShip])
     (by norm_num [ShipData.GetFireRate, sampleShip])).1⟩
